import Mathlib

/-!
Shallow embedding of the pyecommerceapi repository (Flask + MongoDB) for
specification checking.

Each definition mirrors one piece of the Python source, with the source
location recorded in its doc comment.  The MongoDB store is an external
collaborator; per the spec (section 6) it is modelled as a list of
documents, with find = filter, skip/limit = drop/take, and
count = length of the filtered list.  Regex conditions are only ever
built from literal (metacharacter-free) client values at the call sites
the claims cover, so an unanchored pattern has case-insensitive
substring semantics and a caret-anchored pattern has case-insensitive
starts-with semantics.
-/

namespace PyEcommerce

/-! ### Characters and case-insensitive matching -/

/-- Hyphen character, code 45. -/
def hyphenChar : Char := Char.ofNat 45

/-- Dot character, code 46. -/
def dotChar : Char := Char.ofNat 46

/-- Lower-cased character list of a string (Python .lower()). -/
def lowerChars (s : String) : List Char := s.toList.map Char.toLower

/-- Python s.lower() as a string. -/
def pyLower (s : String) : String := String.mk (lowerChars s)

/-- Python s.strip(): remove leading and trailing whitespace. -/
def pyStrip (s : String) : String :=
  String.mk
    (((s.toList.dropWhile Char.isWhitespace).reverse.dropWhile
        Char.isWhitespace).reverse)

/-- Does the first character list occur at the start of the second? -/
def charsStart : List Char → List Char → Bool
  | [], _ => true
  | _ :: _, [] => false
  | a :: p, b :: l => a == b && charsStart p l

/-- Does the first character list occur somewhere inside the second? -/
def charsInside (p : List Char) : List Char → Bool
  | [] => p.isEmpty
  | b :: l => charsStart p (b :: l) || charsInside p l

/-- Case-insensitive substring test: semantics of the MongoDB condition
regex .*pat.* with option i, for a literal pattern. -/
def ciContains (hay pat : String) : Bool :=
  charsInside (lowerChars pat) (lowerChars hay)

/-- Case-insensitive starts-with test: semantics of the MongoDB condition
regex caret-pat with option i, for a literal pattern. -/
def ciStartsWith (hay pat : String) : Bool :=
  charsStart (lowerChars pat) (lowerChars hay)

/-! ### Python numeric string coercion (int(s) / float(s)) -/

/-- Numeric value of a list of decimal digit characters. -/
def digitsVal (cs : List Char) : Nat :=
  cs.foldl (fun n c => 10 * n + (c.toNat - 48)) 0

/-- Parse an unsigned run of decimal digits; none when empty or non-digit. -/
def parseDigits (cs : List Char) : Option Nat :=
  if cs ≠ [] ∧ cs.all Char.isDigit then some (digitsVal cs) else none

/-- Python int(s) on a string without sign handling beyond a single
leading + or -; none models a ValueError. -/
def pyInt (s : String) : Option Int :=
  match s.toList with
  | [] => none
  | c :: rest =>
    if c == Char.ofNat 45 then (parseDigits rest).map (fun n => -(n : Int))
    else if c == Char.ofNat 43 then (parseDigits rest).map (fun n => (n : Int))
    else (parseDigits (c :: rest)).map (fun n => (n : Int))

/-- Python float(s) restricted to decimal-point literals
digits dot digits (with optional single sign); none models a ValueError. -/
def pyFloatCore (cs : List Char) : Option Rat :=
  let ip := cs.takeWhile (fun c => c != dotChar)
  let rest := cs.dropWhile (fun c => c != dotChar)
  match rest with
  | [] => none
  | _ :: fp =>
    if fp.contains dotChar then none
    else if ip.all Char.isDigit ∧ fp.all Char.isDigit ∧ (ip ≠ [] ∨ fp ≠ []) then
      some ((digitsVal ip : Rat) + (digitsVal fp : Rat) / ((10 : Rat) ^ fp.length))
    else none

/-- Python float(s) with a single optional leading sign. -/
def pyFloat (s : String) : Option Rat :=
  match s.toList with
  | [] => none
  | c :: rest =>
    if c == Char.ofNat 45 then (pyFloatCore rest).map (fun q => -q)
    else if c == Char.ofNat 43 then pyFloatCore rest
    else pyFloatCore (c :: rest)

/-! ### Store values, documents -/

/-- BSON-like values stored in documents. -/
inductive BVal where
  | str (s : String)
  | int (n : Int)
  | rat (q : Rat)
  | bool (b : Bool)
  | oid (hex : String)
  | null
  deriving DecidableEq

/-- A schema-less document: ordered field-name/value pairs. -/
abbrev Doc := List (String × BVal)

/-- First value bound to a field name in a document. -/
def docGet (d : Doc) (k : String) : Option BVal :=
  (d.find? (fun kv => kv.1 == k)).map (fun kv => kv.2)

/-! ### Native query conditions -/

/-- A store-native condition on one field, as built by the routes. -/
inductive Cond where
  /-- The condition regex .*pat.* (or the bare unanchored literal pat)
  with option i: case-insensitive contains. -/
  | regexContains (pat : String)
  /-- The condition regex caret-pat with option i:
  case-insensitive anchored at the start. -/
  | regexAnchored (pat : String)
  /-- Literal equality with a value. -/
  | eqVal (v : BVal)
  deriving DecidableEq

/-- Does a present field value satisfy a condition?  Regex conditions only
match string values (MongoDB regex semantics). -/
def condMatches (c : Cond) (v : BVal) : Bool :=
  match c, v with
  | .regexContains pat, .str s => ciContains s pat
  | .regexContains _, _ => false
  | .regexAnchored pat, .str s => ciStartsWith s pat
  | .regexAnchored _, _ => false
  | .eqVal w, v => w == v

/-- A native query: a mapping from field names to conditions
(a Python dict, so inserting an existing key replaces its condition). -/
abbrev Query := List (String × Cond)

/-- Dict-style insertion: replace the condition of an existing key,
otherwise append the pair. -/
def setKey (q : Query) (k : String) (c : Cond) : Query :=
  if q.any (fun kv => kv.1 == k) then
    q.map (fun kv => if kv.1 == k then (k, c) else kv)
  else q ++ [(k, c)]

/-- A document matches a query when every condition is satisfied by the
corresponding field; equality with null also accepts a missing field. -/
def matchesQuery (q : Query) (d : Doc) : Bool :=
  q.all (fun kc =>
    match docGet d kc.1 with
    | some v => condMatches kc.2 v
    | none => kc.2 == Cond.eqVal BVal.null)

/-- MongoDB inclusion projection as used by the routes: an empty field
list means all fields; otherwise keep the listed fields plus _id. -/
def mongoProject (fields : List String) (d : Doc) : Doc :=
  if fields = [] then d
  else d.filter (fun kv => kv.1 == "_id" || fields.contains kv.1)

/-! ### Query translation, search_routes.py -/

/-- Values a client filter field may carry in a JSON request body:
a scalar string, a scalar number, null, or a structured predicate dict
with keys data_type and search_by.  The claims only exercise structured
predicates whose search_by is a string, so search_by is carried as an
optional string (absent models a dict without the key). -/
inductive FVal where
  | str (s : String)
  | int (n : Int)
  | null
  | pred (dataType : Option String) (searchBy : Option String)
  deriving DecidableEq

/-- Python truthiness of a filter value (dicts here are non-empty, hence
truthy). -/
def fvalTruthy : FVal → Bool
  | .str s => s ≠ ""
  | .int n => n ≠ 0
  | .null => false
  | .pred _ _ => true

/-- Control keys excluded from filtering by search_for_name,
search_routes.py line 95. -/
def reservedSearchKeys : List String :=
  ["database", "collection", "page", "page_records", "fields"]

/-- Control keys excluded from filtering by get_table_data,
search_routes.py line 223. -/
def reservedTableKeys : List String :=
  ["database", "collection", "page", "page_records", "fields", "sort"]

/-- Query built by search_for_name, search_routes.py line 95: one
caret-anchored case-insensitive regex per truthy non-reserved entry.
The claims only exercise string-valued filters, so entries are strings
here (the route interpolates the raw value into the pattern). -/
def buildSearchQuery (filters : List (String × String)) : Query :=
  filters.foldl
    (fun q kv =>
      if kv.2 ≠ "" ∧ ¬ reservedSearchKeys.contains kv.1 then
        setKey q kv.1 (Cond.regexAnchored kv.2)
      else q)
    []

/-- Numeric coercion used by get_table_data for data_type number,
search_routes.py line 237: float when the text contains a decimal
point, else int; none models the ValueError caught on line 238. -/
def numericCoerce (s : String) : Option BVal :=
  if s.toList.contains dotChar then (pyFloat s).map BVal.rat
  else (pyInt s).map BVal.int

/-- One step of the filter loop of get_table_data, search_routes.py
lines 222 to 246: reserved keys are skipped; structured predicates
dispatch on data_type (text => contains regex, number => coerced
equality or silently skipped on coercion failure, exact => equality,
anything else => no clause); scalar strings become contains regexes;
other non-null scalars become equality clauses. -/
def tableFilterStep (q : Query) (kv : String × FVal) : Query :=
  if reservedTableKeys.contains kv.1 then q
  else
    match kv.2 with
    | .pred dataType searchBy =>
      match searchBy with
      | none => q
      | some sv =>
        let dt := dataType.getD "text"
        if dt = "text" then setKey q kv.1 (Cond.regexContains sv)
        else if dt = "number" then
          match numericCoerce sv with
          | some v => setKey q kv.1 (Cond.eqVal v)
          | none => q
        else if dt = "exact" then setKey q kv.1 (Cond.eqVal (BVal.str sv))
        else q
    | .null => q
    | .str s => setKey q kv.1 (Cond.regexContains s)
    | .int n => setKey q kv.1 (Cond.eqVal (BVal.int n))

/-- Query built by get_table_data, search_routes.py lines 219 to 246. -/
def buildTableQuery (filters : List (String × FVal)) : Query :=
  filters.foldl tableFilterStep []

/-- MongoDB ascending sort direction, the integer 1. -/
def ascendingDir : Int := 1

/-- MongoDB descending sort direction, the integer -1. -/
def descendingDir : Int := -1

/-- Sort clause built by get_table_data, search_routes.py lines 263 to
266: empty unless sort_by is truthy; direction defaults to the string
asc; lower-cased comparison with asc selects 1, anything else -1. -/
def tableSortClause (sortBy : Option String) (direction : Option String) :
    List (String × Int) :=
  match sortBy with
  | none => []
  | some sb =>
    if sb = "" then []
    else
      [(sb, if pyLower (direction.getD "asc") = "asc" then ascendingDir
            else descendingDir)]

/-- Ordering on stored values used to model the store sort: rank by
value class, then by value. -/
def bvalLe (a b : BVal) : Bool :=
  match a, b with
  | .null, _ => true
  | _, .null => false
  | .int m, .int n => m ≤ n
  | .int m, .rat q => (m : Rat) ≤ q
  | .rat q, .int n => q ≤ (n : Rat)
  | .rat p, .rat q => p ≤ q
  | .int _, _ => true
  | .rat _, _ => true
  | _, .int _ => false
  | _, .rat _ => false
  | .str s, .str t => s ≤ t
  | .str _, _ => true
  | _, .str _ => false
  | .oid s, .oid t => s ≤ t
  | .oid _, _ => true
  | _, .oid _ => false
  | .bool x, .bool y => ¬ x || y

/-- Insertion into a list sorted by a boolean relation. -/
def insertByLe (le : Doc → Doc → Bool) (d : Doc) : List Doc → List Doc
  | [] => [d]
  | e :: t => if le d e then d :: e :: t else e :: insertByLe le d t

/-- Insertion sort by a boolean relation, modelling the store cursor
sort. -/
def sortDocsBy (le : Doc → Doc → Bool) (l : List Doc) : List Doc :=
  l.foldr (insertByLe le) []

/-- Apply a sort clause to a document list: the empty clause leaves the
store order; one pair sorts by the named field in the given direction
(missing fields sort as null). -/
def applySort (clause : List (String × Int)) (docs : List Doc) : List Doc :=
  match clause with
  | [] => docs
  | fd :: _ =>
    let key : Doc → BVal := fun d => (docGet d fd.1).getD BVal.null
    sortDocsBy
      (fun d1 d2 =>
        if fd.2 = ascendingDir then bvalLe (key d1) (key d2)
        else bvalLe (key d2) (key d1))
      docs

/-! ### Endpoint embeddings, search_routes.py -/

/-- Skip count shared by search_for_name (line 105), get_table_data
(line 260) and get_uploaded_files (fileupload_routes.py line 281):
(page - 1) * page_records. -/
def oneBasedSkip (page pageRecords : Nat) : Nat := (page - 1) * pageRecords

/-- A successful paginated payload: the returned count and the page of
documents. -/
structure PageResp where
  count : Nat
  data : List Doc
  deriving DecidableEq

/-- Outcome of the search_for_name route. -/
inductive SearchOutcome where
  | ok (payload : PageResp)
  | badRequest (msg : String)
  | serverError (msg : String)
  deriving DecidableEq

/-- The message of the NameError raised on search_routes.py line 90:
the function get_cached_search_results is called but never defined or
imported anywhere in the repository (its only occurrences are the call
sites on lines 90 and 114), so the call raises NameError, which the
catch-all handler on line 118 converts to a 500 response. -/
def cacheNameErrorMsg : String :=
  "name get_cached_search_results is not defined"

/-- search_for_name, search_routes.py lines 78 to 119, as the code
stands: after the emptiness validation of the stripped database and
collection names (line 86), execution reaches the undefined cache
helper on line 90 and the request ends in a server error. -/
def search_for_name (databaseName collectionName : String) : SearchOutcome :=
  if pyStrip databaseName = "" ∨ pyStrip collectionName = "" then
    SearchOutcome.badRequest ("Database and collection are required")
  else
    SearchOutcome.serverError cacheNameErrorMsg

/-- The store-and-count computation of search_for_name on its cache-miss
path, search_routes.py lines 94 to 116: the code that would run if the
cache helpers existed and missed.  It filters by the caret-anchored
query, skips (page - 1) * page_records, limits to page_records,
projects the requested fields, and returns count = len(results), the
length of the returned page. -/
def searchForNameMiss (docs : List Doc) (filters : List (String × String))
    (page pageRecords : Nat) (fields : List String) : PageResp :=
  let query := buildSearchQuery filters
  let skipRecords := oneBasedSkip page pageRecords
  let results :=
    (((docs.filter (matchesQuery query)).drop skipRecords).take
        pageRecords).map (mongoProject fields)
  ⟨results.length, results⟩

/-- Outcome of the get_table_data route. -/
inductive TableOutcome where
  | ok (payload : PageResp)
  | badRequest (msg : String)
  | notFound (msg : String)
  deriving DecidableEq

/-- The count of a successful table outcome. -/
def tableCount : TableOutcome → Option Nat
  | .ok payload => some payload.count
  | _ => none

/-- The data page of a successful table outcome. -/
def tableData : TableOutcome → Option (List Doc)
  | .ok payload => some payload.data
  | _ => none

/-- get_table_data, search_routes.py lines 201 to 284: validate names,
build the query from the filters, check collection existence (modelled
by the collExists flag), sort, paginate with
skip = (page - 1) * page_records and limit page_records, project, and
return count = collection.count_documents(query), computed from the
query alone (line 277). -/
def get_table_data (docs : List Doc) (databaseName collectionName : String)
    (collExists : Bool) (page pageRecords : Nat) (fields : List String)
    (sortBy : Option String) (direction : Option String)
    (filters : List (String × FVal)) : TableOutcome :=
  if pyStrip databaseName = "" ∨ pyStrip collectionName = "" then
    TableOutcome.badRequest ("Database and collection are required")
  else if ¬ collExists then
    TableOutcome.notFound ("Collection not found")
  else
    let query := buildTableQuery filters
    let skipRecords := oneBasedSkip page pageRecords
    let sortClause := tableSortClause sortBy direction
    let results :=
      (((applySort sortClause (docs.filter (matchesQuery query))).drop
            skipRecords).take pageRecords).map (mongoProject fields)
    let totalCount := (docs.filter (matchesQuery query)).length
    TableOutcome.ok ⟨totalCount, results⟩

/-! ### File list and product list pagination -/

/-- Query built by get_uploaded_files, fileupload_routes.py lines 272
to 276: one unanchored case-insensitive regex (contains semantics for
literal values) per truthy non-control entry. -/
def buildFilesQuery (filters : List (String × String)) : Query :=
  filters.foldl
    (fun q kv =>
      if kv.2 ≠ "" ∧
          ¬ (["database", "collection", "page", "page_records"] :
              List String).contains kv.1 then
        setKey q kv.1 (Cond.regexContains kv.2)
      else q)
    []

/-- get_uploaded_files, fileupload_routes.py lines 260 to 300: filter,
sort by createdAt descending, skip (page - 1) * page_records, limit
page_records, and return count = collection.count_documents(query)
(line 290), computed from the query alone. -/
def get_uploaded_files (docs : List Doc) (page pageRecords : Nat)
    (filters : List (String × String)) : PageResp :=
  let query := buildFilesQuery filters
  let skipRecords := oneBasedSkip page pageRecords
  let sorted := applySort [("createdAt", descendingDir)]
    (docs.filter (matchesQuery query))
  let files := (sorted.drop skipRecords).take pageRecords
  ⟨(docs.filter (matchesQuery query)).length, files⟩

/-- Skip count of get_products, product_routes.py line 321:
page * page_records, with a default page of 0 (line 313). -/
def productsSkip (page pageRecords : Nat) : Nat := page * pageRecords

/-- get_products, product_routes.py lines 310 to 336: unfiltered find,
skip page * page_records, limit page_records, project the requested
fields always keeping _id, and return count = len(products), the
length of the returned page. -/
def get_products (docs : List Doc) (page pageRecords : Nat)
    (fields : List String) : PageResp :=
  let skipRecords := productsSkip page pageRecords
  let products :=
    ((docs.drop skipRecords).take pageRecords).map (mongoProject fields)
  ⟨products.length, products⟩

/-! ### Ingestion pipeline, fileupload_routes.py upload_excel_file -/

/-- A Row Record as buffered on fileupload_routes.py lines 164 to 169:
job identifier, row number, and the header-to-cell mapping. -/
structure RowRecord where
  fileId : String
  rowNumber : Nat
  rowData : List (String × BVal)
  deriving DecidableEq

/-- A Row Error as buffered on fileupload_routes.py lines 156 to 161. -/
structure RowError where
  fileId : String
  rowNumber : Nat
  errorMsg : String
  deriving DecidableEq

/-- In-memory state of the ingestion loop of fileupload_routes.py lines
141 to 183: counters, the two buffers, and the batches flushed so far
(each insert_many call appends one batch, in order). -/
structure IngestState where
  total : Nat
  valid : Nat
  invalid : Nat
  dataBuffer : List RowRecord
  errorBuffer : List RowError
  dataBatches : List (List RowRecord)
  errorBatches : List (List RowError)
  deriving DecidableEq

/-- The batch size of fileupload_routes.py line 141. -/
def batchSize : Nat := 500

/-- State before the first row: zero counters, empty buffers, nothing
flushed. -/
def initialIngestState : IngestState := ⟨0, 0, 0, [], [], [], []⟩

/-- The per-row validation outcome as the code stands: the call to
validate_excel_row on fileupload_routes.py line 151 is commented out
and line 152 assigns the empty string, so every row is treated as
valid. -/
def errorMsgFor (_rowData : List (String × BVal)) : String := ""

/-- One iteration of the row loop, fileupload_routes.py lines 147 to
177: count the row, append it to the error buffer (invalid) or the
data buffer (valid), then flush either buffer once it has reached the
batch size. -/
def processRow (fileId : String) (headers : List String)
    (st : IngestState) (idxRow : Nat × List BVal) : IngestState :=
  let rowData := headers.zip idxRow.2
  let msg := errorMsgFor rowData
  let st1 :=
    if msg ≠ "" then
      { st with
        total := st.total + 1
        invalid := st.invalid + 1
        errorBuffer := st.errorBuffer ++ [⟨fileId, idxRow.1, msg⟩] }
    else
      { st with
        total := st.total + 1
        valid := st.valid + 1
        dataBuffer := st.dataBuffer ++ [⟨fileId, idxRow.1, rowData⟩] }
  let st2 :=
    if st1.dataBuffer.length ≥ batchSize then
      { st1 with
        dataBatches := st1.dataBatches ++ [st1.dataBuffer]
        dataBuffer := [] }
    else st1
  if st2.errorBuffer.length ≥ batchSize then
    { st2 with
      errorBatches := st2.errorBatches ++ [st2.errorBuffer]
      errorBuffer := [] }
  else st2

/-- Row indices as produced by enumerate(..., start=2) on
fileupload_routes.py line 147. -/
def enumFrom (start : Nat) : List (List BVal) → List (Nat × List BVal)
  | [] => []
  | r :: t => (start, r) :: enumFrom (start + 1) t

/-- The row loop over the data rows of the sheet (header row excluded),
fileupload_routes.py lines 147 to 177. -/
def runRows (fileId : String) (headers : List String)
    (rows : List (List BVal)) : IngestState :=
  (enumFrom 2 rows).foldl (processRow fileId headers) initialIngestState

/-- The remainder flushes after the stream ends, fileupload_routes.py
lines 179 to 183. -/
def finalFlush (st : IngestState) : IngestState :=
  let st1 :=
    if st.dataBuffer ≠ [] then
      { st with
        dataBatches := st.dataBatches ++ [st.dataBuffer]
        dataBuffer := [] }
    else st
  if st1.errorBuffer ≠ [] then
    { st1 with
      errorBatches := st1.errorBatches ++ [st1.errorBuffer]
      errorBuffer := [] }
  else st1

/-- The whole row phase of one upload: loop plus remainder flushes. -/
def ingestRows (fileId : String) (headers : List String)
    (rows : List (List BVal)) : IngestState :=
  finalFlush (runRows fileId headers rows)

/-- The final status computed on fileupload_routes.py line 188.  The
string in the else branch is spelled compeleted in the source, not
completed. -/
def finalStatus (invalid : Nat) : String :=
  if invalid > 0 then "failed" else "compeleted"

/-- The fields written to the Ingestion Job record by the terminal
update, fileupload_routes.py lines 190 to 198. -/
structure JobRecord where
  status : String
  totalRows : Nat
  validRows : Nat
  invalidRows : Nat
  deriving DecidableEq

/-- The terminal Job update of upload_excel_file, fileupload_routes.py
lines 186 to 198: final status from the invalid counter, and the three
final counters. -/
def upload_terminal_job (fileId : String) (headers : List String)
    (rows : List (List BVal)) : JobRecord :=
  let st := ingestRows fileId headers rows
  ⟨finalStatus st.invalid, st.total, st.valid, st.invalid⟩

/-! ### File deletion, fileupload_routes.py delete_uploaded_file -/

/-- Is the character an ASCII hexadecimal digit? -/
def isHexChar (c : Char) : Bool :=
  (48 ≤ c.toNat && c.toNat ≤ 57) ||
  (97 ≤ c.toNat && c.toNat ≤ 102) ||
  (65 ≤ c.toNat && c.toNat ≤ 70)

/-- Validity of a string for bson ObjectId(s): exactly 24 hexadecimal
characters; anything else raises InvalidId. -/
def isValidObjectId (s : String) : Bool :=
  s.length == 24 && s.toList.all isHexChar

/-- The canonical string form of a version-4 UUID as produced by
str(uuid.uuid4()) on fileupload_routes.py line 109: 36 characters,
hyphens at positions 8, 13, 18 and 23, hexadecimal digits elsewhere. -/
def isUuid4Str (s : String) : Bool :=
  s.length == 36 &&
  (List.range 36).all (fun i =>
    let c := (s.toList).getD i (Char.ofNat 0)
    if i == 8 || i == 13 || i == 18 || i == 23 then c == hyphenChar
    else isHexChar c)

/-- The documents of the file-metadata collection and of the parsed-data
collection, as one store state for the delete route. -/
structure UploadStore where
  fileDocs : List Doc
  dataDocs : List Doc
  deriving DecidableEq

/-- Outcome of the delete_uploaded_file route. -/
inductive DeleteOutcome where
  | ok (rowsDeleted : Nat)
  | badRequest (msg : String)
  | notFound (msg : String)
  | serverError (msg : String)
  deriving DecidableEq

/-- delete_uploaded_file, fileupload_routes.py lines 345 to 378:
validate the four fields, convert fileId with ObjectId(...) on line
360 (raising to the catch-all handler when the string is not 24
hexadecimal characters), look up the file document, delete the parsed
rows then the metadata document.  Returns the outcome together with
the store state after the request. -/
def delete_uploaded_file (store : UploadStore)
    (databaseName fileCollName dataCollName fileId : String) :
    DeleteOutcome × UploadStore :=
  if pyStrip databaseName = "" ∨ pyStrip fileCollName = "" ∨
      pyStrip dataCollName = "" ∨ fileId = "" then
    (DeleteOutcome.badRequest ("Missing required fields"), store)
  else if isValidObjectId fileId then
    let oidVal := BVal.oid fileId
    match store.fileDocs.find? (fun d => docGet d "_id" == some oidVal) with
    | none => (DeleteOutcome.notFound ("File not found"), store)
    | some _ =>
      let keptData :=
        store.dataDocs.filter (fun d => docGet d "fileId" != some oidVal)
      let rowsDeleted := store.dataDocs.length - keptData.length
      let keptFiles :=
        store.fileDocs.eraseP (fun d => docGet d "_id" == some oidVal)
      (DeleteOutcome.ok rowsDeleted, ⟨keptFiles, keptData⟩)
  else
    (DeleteOutcome.serverError ("InvalidId"), store)

/-- Characterization of the in-memory ingestion state after k rows, as
the code stands (every row valid): counters track k, the data buffer
holds the k mod 500 most recent records, every flushed data batch has
exactly 500 records, and the error side stays empty. -/
def allValidInv (k : Nat) (st : IngestState) : Prop :=
  st.total = k ∧ st.valid = k ∧ st.invalid = 0 ∧
  st.dataBuffer.length = k % batchSize ∧
  st.dataBatches.map List.length = List.replicate (k / batchSize) batchSize ∧
  st.errorBuffer = [] ∧ st.errorBatches = []

/-- Two sample product documents whose names start with Al, for
concrete evaluations. -/
def twoAlphaDocs : List Doc :=
  [[(("productName"), BVal.str ("Alpha"))],
   [(("productName"), BVal.str ("Alpine"))]]

/-- The filter productName = Al used with the two sample documents. -/
def alphaFilter : List (String × String) := [(("productName"), ("Al"))]

/-- Three one-field sample documents, for concrete pagination
evaluations. -/
def threeSkuDocs : List Doc :=
  [[(("sku"), BVal.str ("a"))], [(("sku"), BVal.str ("b"))],
   [(("sku"), BVal.str ("c"))]]

end PyEcommerce

namespace PyEcommerce

/-! ### Ingestion lemmas -/

theorem batchSize_pos : 0 < batchSize := by decide

theorem processRow_allValid (fid : String) (hs : List String) (k : Nat)
    (st : IngestState) (ir : Nat × List BVal) (h : allValidInv k st) :
    allValidInv (k + 1) (processRow fid hs st ir) := by
  obtain ⟨ht, hv, hi, hdb, hdbt, heb, hebt⟩ := h
  have hbs : ¬ (batchSize = 0) := by decide
  have hb : batchSize = 500 := rfl
  have hlt : k % batchSize < batchSize := Nat.mod_lt _ batchSize_pos
  by_cases hflush : k % batchSize + 1 = batchSize
  · have hmod : (k + 1) % batchSize = 0 := by rw [hb] at hflush ⊢; omega
    have hdiv : (k + 1) / batchSize = k / batchSize + 1 := by
      rw [hb] at hflush ⊢; omega
    simp [processRow, errorMsgFor, allValidInv, heb, hebt, hdb, hflush,
      hmod, hdiv, ht, hv, hi, hdbt, hbs, Nat.le_zero,
      List.length_append, List.replicate_succ']
  · have hmod : (k + 1) % batchSize = k % batchSize + 1 := by
      rw [hb] at hflush ⊢; omega
    have hdiv : (k + 1) / batchSize = k / batchSize := by
      rw [hb] at hflush ⊢; omega
    have hnoflush : ¬ (batchSize ≤ k % batchSize + 1) := by
      rw [hb] at hflush hlt ⊢; omega
    simp [processRow, errorMsgFor, allValidInv, heb, hebt, hdb, hnoflush,
      hmod, hdiv, ht, hv, hi, hdbt, hbs, Nat.le_zero, List.length_append]

theorem foldl_allValid (fid : String) (hs : List String) :
    ∀ (rows : List (List BVal)) (start k : Nat) (st : IngestState),
    allValidInv k st →
    allValidInv (k + rows.length)
      ((enumFrom start rows).foldl (processRow fid hs) st) := by
  intro rows
  induction rows with
  | nil => intro start k st h; simpa [enumFrom] using h
  | cons r t ih =>
    intro start k st h
    have h1 := processRow_allValid fid hs k st (start, r) h
    have h2 := ih (start + 1) (k + 1) _ h1
    simpa [enumFrom, Nat.add_comm, Nat.add_assoc, Nat.add_left_comm] using h2

theorem runRows_allValid (fid : String) (hs : List String)
    (rows : List (List BVal)) :
    allValidInv rows.length (runRows fid hs rows) := by
  have h0 : allValidInv 0 initialIngestState := by
    simp [allValidInv, initialIngestState, batchSize]
  simpa [runRows] using foldl_allValid fid hs rows 2 0 initialIngestState h0

theorem finalFlush_batches (st : IngestState) (hne : st.dataBuffer ≠ [])
    (heb : st.errorBuffer = []) :
    (finalFlush st).dataBatches = st.dataBatches ++ [st.dataBuffer] ∧
    (finalFlush st).errorBatches = st.errorBatches := by
  unfold finalFlush
  simp [hne, heb]

theorem finalFlush_total (st : IngestState) :
    (finalFlush st).total = st.total ∧ (finalFlush st).valid = st.valid ∧
    (finalFlush st).invalid = st.invalid := by
  unfold finalFlush
  by_cases h1 : st.dataBuffer = [] <;> by_cases h2 : st.errorBuffer = [] <;>
    simp [h1, h2]

theorem ingestRows_counters (fid : String) (hs : List String)
    (rows : List (List BVal)) :
    (ingestRows fid hs rows).total = rows.length ∧
    (ingestRows fid hs rows).valid = rows.length ∧
    (ingestRows fid hs rows).invalid = 0 := by
  obtain ⟨ht, hv, hi, _⟩ := runRows_allValid fid hs rows
  obtain ⟨ft, fv, fi⟩ := finalFlush_total (runRows fid hs rows)
  exact ⟨by rw [ingestRows, ft, ht], by rw [ingestRows, fv, hv],
    by rw [ingestRows, fi, hi]⟩

/-! ### Claim theorems: ingestion (C1, C4, C8) -/

/-- Claim C1, code-bug evidence.  The claim says an upload whose rows
are all valid ends with job status exactly equal to the string
completed.  Evaluating the embedded terminal update on an all-valid
two-row file shows the status written is the misspelled string
compeleted (fileupload_routes.py line 188), which is not the string
completed, although the failed-iff-invalid-positive half of the claim
does hold on the conditional of line 188. -/
theorem upload_allvalid_status_compeleted :
    (upload_terminal_job ("job-1") [("amount")]
        [[BVal.int 5], [BVal.int 7]]).status = "compeleted" ∧
    (upload_terminal_job ("job-1") [("amount")]
        [[BVal.int 5], [BVal.int 7]]).status ≠ "completed" ∧
    finalStatus 1 = "failed" ∧
    finalStatus 0 ≠ "completed" := by decide

/-- Claim C4: at the terminal job update the counters satisfy
total = valid + invalid, and every data row (header excluded) is
counted in exactly one of valid or invalid: since the source disables
row validation (fileupload_routes.py line 152), every row is counted
valid, so total = rows.length = valid + invalid with invalid = 0. -/
theorem ingestion_counters_partition (fid : String) (hs : List String)
    (rows : List (List BVal)) :
    (upload_terminal_job fid hs rows).totalRows =
        (upload_terminal_job fid hs rows).validRows +
          (upload_terminal_job fid hs rows).invalidRows ∧
    (upload_terminal_job fid hs rows).totalRows = rows.length := by
  obtain ⟨ht, hv, hi⟩ := ingestRows_counters fid hs rows
  simp only [upload_terminal_job]
  rw [ht, hv, hi]
  omega

/-- Claim C8: during ingestion the data and error buffers never exceed
the batch size 500 at any observation point (after every loop
iteration each buffer is strictly below 500, and within an iteration a
buffer grows by at most one before the flush check runs, so 500 is
never exceeded); every flushed in-loop data batch has exactly 500
records; and a 1200-row all-valid file produces data flushes of
exactly 500, 500 and 200 records with no error flush. -/
theorem ingestion_buffer_bound_and_flushes (fid : String)
    (hs : List String) (rows prefixRows : List (List BVal))
    (_hpre : prefixRows <+: rows) :
    (runRows fid hs prefixRows).dataBuffer.length < batchSize ∧
    (runRows fid hs prefixRows).errorBuffer.length < batchSize ∧
    (runRows fid hs prefixRows).dataBatches.map List.length =
      List.replicate (prefixRows.length / batchSize) batchSize ∧
    (ingestRows fid hs (List.replicate 1200 ([] : List BVal))).dataBatches.map
        List.length = [500, 500, 200] ∧
    (ingestRows fid hs
        (List.replicate 1200 ([] : List BVal))).errorBatches = [] := by
  refine ⟨?_, ?_, ?_, ?_, ?_⟩
  · obtain ⟨_, _, _, hdb, _⟩ := runRows_allValid fid hs prefixRows
    rw [hdb]; exact Nat.mod_lt _ batchSize_pos
  · obtain ⟨_, _, _, _, _, heb, _⟩ := runRows_allValid fid hs prefixRows
    rw [heb]; simpa using batchSize_pos
  · exact (runRows_allValid fid hs prefixRows).2.2.2.2.1
  · obtain ⟨_, _, _, hdb, hdbt, heb, _⟩ :=
      runRows_allValid fid hs (List.replicate 1200 ([] : List BVal))
    have hlen : (List.replicate 1200 ([] : List BVal)).length = 1200 :=
      List.length_replicate 1200 ([] : List BVal)
    rw [hlen] at hdb hdbt
    have hbuf :
        (runRows fid hs (List.replicate 1200 ([] : List BVal))).dataBuffer.length
          = 200 := by rw [hdb]; decide
    have hne :
        (runRows fid hs (List.replicate 1200 ([] : List BVal))).dataBuffer
          ≠ [] := by
      intro hempty
      rw [hempty] at hbuf
      exact absurd hbuf (by decide)
    have hbatches :
        (runRows fid hs
            (List.replicate 1200 ([] : List BVal))).dataBatches.map List.length
          = [500, 500] := by rw [hdbt]; decide
    unfold ingestRows
    rw [(finalFlush_batches _ hne heb).1, List.map_append, hbatches,
      List.map_cons, List.map_nil, hbuf]
    decide
  · obtain ⟨_, _, _, hdb, _, heb, hebt⟩ :=
      runRows_allValid fid hs (List.replicate 1200 ([] : List BVal))
    have hlen : (List.replicate 1200 ([] : List BVal)).length = 1200 :=
      List.length_replicate 1200 ([] : List BVal)
    rw [hlen] at hdb
    have hne :
        (runRows fid hs (List.replicate 1200 ([] : List BVal))).dataBuffer
          ≠ [] := by
      intro hempty
      rw [hempty] at hdb
      exact absurd hdb (by decide)
    unfold ingestRows
    rw [(finalFlush_batches _ hne heb).2, hebt]

/-- Witness for ingestion_buffer_bound_and_flushes at the empty prefix
of the empty file. -/
theorem ingestion_buffer_bound_witness :
    (runRows ("f") [] []).dataBuffer.length < batchSize ∧
    (ingestRows ("f") []
        (List.replicate 1200 ([] : List BVal))).dataBatches.map List.length
      = [500, 500, 200] :=
  ⟨(ingestion_buffer_bound_and_flushes ("f") [] [] [] (List.prefix_refl _)).1,
   (ingestion_buffer_bound_and_flushes ("f") [] [] []
      (List.prefix_refl _)).2.2.2.1⟩

/-! ### Claim theorems: search endpoints (C3, C9) -/

/-- Claim C3: for every search-for-name request with non-empty stripped
database and collection names, the route never returns a result
payload: it reaches the call to the undefined helper
get_cached_search_results (search_routes.py line 90), which raises a
NameError caught by the catch-all handler (line 118), so the response
is always a server error. -/
theorem search_for_name_always_server_error
    (databaseName collectionName : String)
    (h1 : pyStrip databaseName ≠ "") (h2 : pyStrip collectionName ≠ "") :
    search_for_name databaseName collectionName
      = SearchOutcome.serverError cacheNameErrorMsg := by
  unfold search_for_name
  simp [h1, h2]

/-- Witness for search_for_name_always_server_error on the documented
example database and collection. -/
theorem search_for_name_server_error_witness :
    search_for_name ("ecommerce_db") ("products")
      = SearchOutcome.serverError cacheNameErrorMsg :=
  search_for_name_always_server_error ("ecommerce_db") ("products")
    (by decide) (by decide)

/-- Claim C9: the two substring modes differ as specified.  On the
filter value Test for field productName, search_for_name builds the
anchored case-insensitive condition (search_routes.py line 95) and
get_table_data builds the unanchored contains condition (line 234);
the contains condition matches the document named My Test Product
while the anchored condition does not. -/
theorem contains_and_anchored_modes_differ :
    buildSearchQuery [(("productName"), ("Test"))]
      = [(("productName"), Cond.regexAnchored ("Test"))] ∧
    buildTableQuery [(("productName"), FVal.str ("Test"))]
      = [(("productName"), Cond.regexContains ("Test"))] ∧
    condMatches (Cond.regexContains ("Test"))
      (BVal.str ("My Test Product")) = true ∧
    condMatches (Cond.regexAnchored ("Test"))
      (BVal.str ("My Test Product")) = false ∧
    matchesQuery (buildTableQuery [(("productName"), FVal.str ("Test"))])
      [(("productName"), BVal.str ("My Test Product"))] = true ∧
    matchesQuery (buildSearchQuery [(("productName"), ("Test"))])
      [(("productName"), BVal.str ("My Test Product"))] = false := by
  decide

/-! ### Claim theorems: deletion of upload jobs (C10) -/

theorem uuid4_length {s : String} (h : isUuid4Str s = true) :
    s.length = 36 := by
  unfold isUuid4Str at h
  have h1 := (Bool.and_eq_true _ _).mp h
  exact eq_of_beq h1.1

/-- Claim C10: a job created by the upload route gets a string UUID as
its identifier (fileupload_routes.py line 109), which has 36
characters; the delete route unconditionally applies ObjectId(...) to
the supplied fileId (line 360), which raises for any string that is
not 24 hexadecimal characters, so for every upload-created job the
delete request ends in a server error and both collections are left
unchanged. -/
theorem upload_job_delete_always_fails (store : UploadStore)
    (databaseName fileCollName dataCollName fileId : String)
    (hid : isUuid4Str fileId = true)
    (hdb : pyStrip databaseName ≠ "") (hfc : pyStrip fileCollName ≠ "")
    (hdc : pyStrip dataCollName ≠ "") :
    delete_uploaded_file store databaseName fileCollName dataCollName fileId
      = (DeleteOutcome.serverError ("InvalidId"), store) := by
  have h36 : fileId.length = 36 := uuid4_length hid
  have hne : fileId ≠ "" := by
    intro hempty
    rw [hempty] at h36
    exact absurd h36 (by decide)
  have hoid : isValidObjectId fileId = false := by
    simp [isValidObjectId, h36]
  unfold delete_uploaded_file
  simp [hdb, hfc, hdc, hne, hoid]

/-- Witness for upload_job_delete_always_fails: a store holding one
upload-created job and one of its rows, and a concrete UUID-form
identifier; nothing is deleted. -/
theorem upload_job_delete_fails_witness :
    delete_uploaded_file
        ⟨[[(("_id"),
            BVal.str ("123e4567-e89b-12d3-a456-426614174000"))]],
          [[(("fileId"),
            BVal.str ("123e4567-e89b-12d3-a456-426614174000"))]]⟩
        ("upload_db") ("file_uploads") ("excel_data")
        ("123e4567-e89b-12d3-a456-426614174000")
      = (DeleteOutcome.serverError ("InvalidId"),
          ⟨[[(("_id"),
              BVal.str ("123e4567-e89b-12d3-a456-426614174000"))]],
            [[(("fileId"),
              BVal.str ("123e4567-e89b-12d3-a456-426614174000"))]]⟩) :=
  upload_job_delete_always_fails _ _ _ _ _ (by decide) (by decide)
    (by decide) (by decide)

/-! ### Claim theorems: sort direction (C6) -/

/-- Counterexample to claim C6: the claim says an unrecognized
direction string defaults to ascending, but get_table_data
(search_routes.py line 265) maps every direction whose lower-casing
differs from asc, recognized or not, to -1, the descending direction:
on the unrecognized direction sideways the built clause is descending,
not ascending. -/
theorem unrecognized_direction_sorts_descending :
    tableSortClause (some ("createdAt")) (some ("sideways"))
      = [(("createdAt"), descendingDir)] ∧
    descendingDir ≠ ascendingDir := by decide

/-- Claim C6 as amended: a direction lower-casing to asc maps to
ascending; every other direction string, recognized (desc) or not,
maps to descending; an absent direction defaults to the string asc
and hence to ascending. -/
theorem sort_direction_mapping (sb d : String) (hsb : sb ≠ "") :
    (pyLower d = "asc" →
      tableSortClause (some sb) (some d) = [(sb, ascendingDir)]) ∧
    (pyLower d ≠ "asc" →
      tableSortClause (some sb) (some d) = [(sb, descendingDir)]) ∧
    tableSortClause (some sb) none = [(sb, ascendingDir)] := by
  have hasc : pyLower ("asc") = "asc" := by decide
  refine ⟨?_, ?_, ?_⟩
  · intro hd; simp [tableSortClause, hsb, hd]
  · intro hd; simp [tableSortClause, hsb, hd]
  · simp [tableSortClause, hsb, hasc]

/-- Witness for sort_direction_mapping on the mixed-case direction DeSc
and on an absent direction. -/
theorem sort_direction_mapping_witness :
    tableSortClause (some ("createdAt")) (some ("DeSc"))
      = [(("createdAt"), descendingDir)] ∧
    tableSortClause (some ("createdAt")) none
      = [(("createdAt"), ascendingDir)] :=
  ⟨(sort_direction_mapping ("createdAt") ("DeSc") (by decide)).2.1
      (by decide),
   (sort_direction_mapping ("createdAt") ("DeSc") (by decide)).2.2⟩

/-! ### Claim theorems: numeric predicate coercion (C7) -/

/-- Claim C7: a structured numeric predicate whose search_by value
cannot be coerced to a number is silently dropped by the query
translator of get_table_data (search_routes.py lines 236 to 239): the
built query is exactly the query built without that entry, so the
field behaves as unfiltered, the rest of the query is unaffected, and
no error is raised (the translator is a total function). -/
theorem numeric_coercion_failure_drops_predicate
    (pre post : List (String × FVal)) (k s : String)
    (h : numericCoerce s = none) :
    buildTableQuery
        (pre ++ (k, FVal.pred (some ("number")) (some s)) :: post)
      = buildTableQuery (pre ++ post) := by
  unfold buildTableQuery
  rw [List.foldl_append, List.foldl_append, List.foldl_cons]
  congr 1
  by_cases hk : reservedTableKeys.contains k <;>
    simp [tableFilterStep, hk, h]

/-- Witness for numeric_coercion_failure_drops_predicate: the
non-numeric search value abc on field price is dropped and the
remaining text filter on sku is unaffected. -/
theorem numeric_coercion_drop_witness :
    buildTableQuery
        [(("price"), FVal.pred (some ("number")) (some ("abc"))),
         (("sku"), FVal.str ("T"))]
      = buildTableQuery [(("sku"), FVal.str ("T"))] :=
  numeric_coercion_failure_drops_predicate [] [(("sku"), FVal.str ("T"))]
    ("price") ("abc") (by decide)

/-! ### Claim theorems: count semantics (C2) -/

/-- Counterexample to claim C2: the claim says every list/search
request returns a count equal to the total number of matching
documents, independent of pagination; but search_for_name computes
count = len(results) from the already-skipped-and-limited page
(search_routes.py lines 106 and 111): on two matching documents with
page_records = 1 the computed count is 1, not 2, and raising
page_records to 2 changes it. -/
theorem searchforname_count_depends_on_pagination :
    (searchForNameMiss twoAlphaDocs alphaFilter 1 1 []).count = 1 ∧
    (twoAlphaDocs.filter
        (matchesQuery (buildSearchQuery alphaFilter))).length = 2 ∧
    (searchForNameMiss twoAlphaDocs alphaFilter 1 1 []).count
      ≠ (searchForNameMiss twoAlphaDocs alphaFilter 1 2 []).count := by
  decide

/-- Claim C2 as amended: for the table-data operation (and the file
list), the returned count equals the total number of matching
documents, computed from the predicate alone, so it is invariant under
page, page_records, fields and sort; the search-for-name computation
instead returns the length of the returned page as its count. -/
theorem count_semantics_amended
    (docs : List Doc) (databaseName collectionName : String)
    (page1 pageRecords1 page2 pageRecords2 : Nat)
    (fields1 fields2 : List String)
    (sortBy1 dir1 sortBy2 dir2 : Option String)
    (filters : List (String × FVal))
    (fdocs : List Doc) (fpage fpageRecords : Nat)
    (ffilters : List (String × String))
    (sdocs : List Doc) (sfilters : List (String × String))
    (spage spageRecords : Nat) (sfields : List String)
    (h1 : pyStrip databaseName ≠ "") (h2 : pyStrip collectionName ≠ "") :
    tableCount (get_table_data docs databaseName collectionName true page1
        pageRecords1 fields1 sortBy1 dir1 filters)
      = some (docs.filter (matchesQuery (buildTableQuery filters))).length ∧
    tableCount (get_table_data docs databaseName collectionName true page1
        pageRecords1 fields1 sortBy1 dir1 filters)
      = tableCount (get_table_data docs databaseName collectionName true
          page2 pageRecords2 fields2 sortBy2 dir2 filters) ∧
    (get_uploaded_files fdocs fpage fpageRecords ffilters).count
      = (fdocs.filter (matchesQuery (buildFilesQuery ffilters))).length ∧
    (searchForNameMiss sdocs sfilters spage spageRecords sfields).count
      = (searchForNameMiss sdocs sfilters spage spageRecords
          sfields).data.length := by
  have hmain : ∀ (p r : Nat) (f : List String) (sb d : Option String),
      tableCount (get_table_data docs databaseName collectionName true p r f
          sb d filters)
        = some (docs.filter (matchesQuery (buildTableQuery filters))).length := by
    intro p r f sb d
    unfold get_table_data
    simp [h1, h2, tableCount]
  exact ⟨hmain page1 pageRecords1 fields1 sortBy1 dir1,
    by rw [hmain page1 pageRecords1 fields1 sortBy1 dir1,
      hmain page2 pageRecords2 fields2 sortBy2 dir2],
    rfl, rfl⟩

/-- Witness for count_semantics_amended at concrete inputs. -/
theorem count_semantics_witness :
    tableCount (get_table_data twoAlphaDocs ("db") ("products") true 1 5 []
        none none [])
      = some (twoAlphaDocs.filter (matchesQuery (buildTableQuery []))).length :=
  (count_semantics_amended twoAlphaDocs ("db") ("products") 1 5 2 1 []
    [(("sku"))] none none none none [] twoAlphaDocs 1 1 [] twoAlphaDocs
    alphaFilter 1 1 [] (by decide) (by decide)).1

/-! ### Claim theorems: pagination skip and limit (C5) -/

/-- Counterexample to claim C5: the claim says every paginated read
skips (page - 1) * page_size documents; but get_products
(product_routes.py line 321) skips page * page_records: on a
three-document collection with page = 1 and page_records = 2, the
returned page is the third document alone, not the first two that the
claimed skip of 0 would give. -/
theorem products_pagination_is_zero_based :
    (get_products threeSkuDocs 1 2 []).data
      = [[(("sku"), BVal.str ("c"))]] ∧
    ((threeSkuDocs.drop ((1 - 1) * 2)).take 2).map (mongoProject [])
      = [[(("sku"), BVal.str ("a"))], [(("sku"), BVal.str ("b"))]] ∧
    (get_products threeSkuDocs 1 2 []).data
      ≠ ((threeSkuDocs.drop ((1 - 1) * 2)).take 2).map (mongoProject []) := by
  decide

/-- Claim C5 as amended: for page >= 1 and page_size >= 1, the
search-for-name computation, get_table_data and get_uploaded_files all
skip exactly (page - 1) * page_size documents and return at most
page_size items; get_products instead skips page * page_size documents
(its pages are zero-based, with default page 0) and also returns at
most page_size items. -/
theorem pagination_skip_and_limit_amended
    (page pageRecords : Nat) (_hp : 1 ≤ page) (_hr : 1 ≤ pageRecords)
    (docs : List Doc) (filters : List (String × String))
    (fields : List String)
    (tdocs : List Doc) (databaseName collectionName : String)
    (tfields : List String) (sortBy dir : Option String)
    (tfilters : List (String × FVal))
    (fdocs : List Doc) (ffilters : List (String × String))
    (pdocs : List Doc) (pfields : List String)
    (h1 : pyStrip databaseName ≠ "") (h2 : pyStrip collectionName ≠ "") :
    (searchForNameMiss docs filters page pageRecords fields).data
      = (((docs.filter (matchesQuery (buildSearchQuery filters))).drop
            ((page - 1) * pageRecords)).take pageRecords).map
          (mongoProject fields) ∧
    (searchForNameMiss docs filters page pageRecords fields).data.length
      ≤ pageRecords ∧
    tableData (get_table_data tdocs databaseName collectionName true page
        pageRecords tfields sortBy dir tfilters)
      = some ((((applySort (tableSortClause sortBy dir)
            (tdocs.filter (matchesQuery (buildTableQuery tfilters)))).drop
              ((page - 1) * pageRecords)).take pageRecords).map
          (mongoProject tfields)) ∧
    ((tableData (get_table_data tdocs databaseName collectionName true page
        pageRecords tfields sortBy dir tfilters)).getD []).length
      ≤ pageRecords ∧
    (get_uploaded_files fdocs page pageRecords ffilters).data
      = ((applySort [(("createdAt"), descendingDir)]
            (fdocs.filter (matchesQuery (buildFilesQuery ffilters)))).drop
          ((page - 1) * pageRecords)).take pageRecords ∧
    (get_uploaded_files fdocs page pageRecords ffilters).data.length
      ≤ pageRecords ∧
    (get_products pdocs page pageRecords pfields).data
      = ((pdocs.drop (page * pageRecords)).take pageRecords).map
          (mongoProject pfields) ∧
    (get_products pdocs page pageRecords pfields).data.length
      ≤ pageRecords := by
  have htable : tableData (get_table_data tdocs databaseName collectionName
      true page pageRecords tfields sortBy dir tfilters)
      = some ((((applySort (tableSortClause sortBy dir)
            (tdocs.filter (matchesQuery (buildTableQuery tfilters)))).drop
              ((page - 1) * pageRecords)).take pageRecords).map
          (mongoProject tfields)) := by
    unfold get_table_data
    simp [h1, h2, tableData, oneBasedSkip]
  refine ⟨rfl, ?_, htable, ?_, rfl, ?_, rfl, ?_⟩
  · show ((((docs.filter (matchesQuery (buildSearchQuery filters))).drop
        (oneBasedSkip page pageRecords)).take pageRecords).map
        (mongoProject fields)).length ≤ pageRecords
    rw [List.length_map]
    exact List.length_take_le _ _
  · rw [htable]
    show ((((applySort (tableSortClause sortBy dir)
        (tdocs.filter (matchesQuery (buildTableQuery tfilters)))).drop
          ((page - 1) * pageRecords)).take pageRecords).map
        (mongoProject tfields)).length ≤ pageRecords
    rw [List.length_map]
    exact List.length_take_le _ _
  · show (((applySort [(("createdAt"), descendingDir)]
        (fdocs.filter (matchesQuery (buildFilesQuery ffilters)))).drop
          (oneBasedSkip page pageRecords)).take pageRecords).length
        ≤ pageRecords
    exact List.length_take_le _ _
  · show (((pdocs.drop (productsSkip page pageRecords)).take
        pageRecords).map (mongoProject pfields)).length ≤ pageRecords
    rw [List.length_map]
    exact List.length_take_le _ _

/-- Witness for pagination_skip_and_limit_amended at page 1 with page
size 2 over the sample documents. -/
theorem pagination_amended_witness :
    (get_products threeSkuDocs 1 2 []).data
      = ((threeSkuDocs.drop (1 * 2)).take 2).map (mongoProject []) ∧
    (searchForNameMiss twoAlphaDocs alphaFilter 1 2 []).data.length ≤ 2 :=
  ⟨(pagination_skip_and_limit_amended 1 2 (by decide) (by decide)
      twoAlphaDocs alphaFilter [] twoAlphaDocs ("db") ("c") [] none none []
      twoAlphaDocs alphaFilter threeSkuDocs [] (by decide)
      (by decide)).2.2.2.2.2.2.1,
   (pagination_skip_and_limit_amended 1 2 (by decide) (by decide)
      twoAlphaDocs alphaFilter [] twoAlphaDocs ("db") ("c") [] none none []
      twoAlphaDocs alphaFilter threeSkuDocs [] (by decide)
      (by decide)).2.1⟩

end PyEcommerce
